import Mathlib

/-!
Verification development for the finance-tracker data core
(src/src/contexts/DataContext.tsx and src/src/components/CSVImport.tsx).

Numbers of the JavaScript source are modelled as rationals; transaction and
budget ids (produced by generateId, i.e. Date.now() + Math.random(), a
nondeterministic number) are modelled as explicitly supplied rational values.
The wall-clock current month (new Date().toISOString().slice(0, 7)) is
modelled as an explicit String parameter.
-/

/-! ## Character and string helpers (models of the JavaScript string builtins) -/

/-- Model of the JavaScript whitespace test used by String.prototype.trim. -/
def isWhitespaceChar (c : Char) : Bool :=
  c = ' ' ∨ c = '\t' ∨ c = '\n' ∨ c = '\r'

/-- Model of JavaScript String.prototype.trim. -/
def strTrim (s : String) : String :=
  String.mk ((((s.data.dropWhile isWhitespaceChar).reverse).dropWhile isWhitespaceChar).reverse)

/-- Model of JavaScript String.prototype.toLowerCase on ASCII data. -/
def strToLower (s : String) : String :=
  String.mk (s.data.map Char.toLower)

/-- List-level prefix test used to model String.prototype.startsWith. -/
def startsWithChars : List Char → List Char → Bool
  | _, [] => true
  | [], _ :: _ => false
  | a :: as, b :: bs => a = b && startsWithChars as bs

/-- Model of JavaScript String.prototype.startsWith. -/
def strStartsWith (s pre : String) : Bool :=
  startsWithChars s.data pre.data

/-- List-level substring test used to model String.prototype.includes. -/
def containsCharsL (needle : List Char) : List Char → Bool
  | [] => startsWithChars [] needle
  | c :: rest => startsWithChars (c :: rest) needle || containsCharsL needle rest

/-- Model of JavaScript String.prototype.includes. -/
def strIncludes (h needle : String) : Bool :=
  containsCharsL needle.data h.data

/-- Model of JavaScript String.prototype.split on a one-character separator. -/
def splitCharAux (sep : Char) : List Char → List Char → List String
  | [], current => [String.mk current]
  | c :: rest, current =>
      if c = sep then String.mk current :: splitCharAux sep rest []
      else splitCharAux sep rest (current ++ [c])

/-- Model of JavaScript String.prototype.split on a one-character separator. -/
def splitChar (sep : Char) (s : String) : List String :=
  splitCharAux sep s.data []

/-- Model of amountStr.replace with the regex class of dollar and comma:
removes every dollar sign and comma character. -/
def removeDollarComma (s : String) : String :=
  String.mk (s.data.filter (fun c => !(c = '$' || c = ',')))

/-! ## A model of the JavaScript parseFloat builtin.
Parses an optional sign followed by a decimal literal (digits, optionally a
dot and more digits) at the start of the string, after skipping leading
whitespace; trailing characters are ignored; returns none when no digit can
be consumed (the NaN case). Exponent forms and the Infinity literal are not
modelled; no input of this repository uses them. -/

/-- Consume a maximal run of decimal digits. -/
def takeDigits : List Char → List Char × List Char
  | [] => ([], [])
  | c :: rest =>
      if c.isDigit then
        let p := takeDigits rest
        (c :: p.1, p.2)
      else ([], c :: rest)

/-- Numeric value of a digit run. -/
def digitsToNat (ds : List Char) : Nat :=
  ds.foldl (fun a c => a * 10 + (c.toNat - 48)) 0

/-- Unsigned decimal literal at the head of the character list. -/
def parseUnsignedDec (cs : List Char) : Option ℚ :=
  let ip := takeDigits cs
  match ip.2 with
  | '.' :: rest2 =>
      let fp := takeDigits rest2
      if ip.1 = [] && fp.1 = [] then none
      else some ((digitsToNat ip.1 : ℚ) + (digitsToNat fp.1 : ℚ) / ((10 : ℚ) ^ fp.1.length))
  | _ => if ip.1 = [] then none else some (digitsToNat ip.1 : ℚ)

/-- Model of the JavaScript parseFloat builtin (see section comment). -/
def jsParseFloat (s : String) : Option ℚ :=
  match s.data.dropWhile isWhitespaceChar with
  | '-' :: rest => (parseUnsignedDec rest).map (fun q => -q)
  | '+' :: rest => parseUnsignedDec rest
  | cs => parseUnsignedDec cs

/-! ## Date normalization (CSVImport.tsx formatDate).
The source parses the date text with the JavaScript Date constructor and
re-serializes it with toISOString; on an invalid date it falls back to the
current day. For a canonical YYYY-MM-DD string this round trip is the
identity; the model treats exactly the canonical in-range strings as valid
and sends every other input to the supplied current day. -/

/-- Days in a month, with the Gregorian leap rule, as the JavaScript Date
range check applies it to ISO input. -/
def daysInMonth (year month : Nat) : Nat :=
  if month = 2 then
    if year % 4 = 0 && (year % 100 ≠ 0 || year % 400 = 0) then 29 else 28
  else if month = 4 || month = 6 || month = 9 || month = 11 then 30
  else 31

/-- Canonical in-range YYYY-MM-DD test. -/
def isCanonicalDate (s : String) : Bool :=
  match s.data with
  | [y1, y2, y3, y4, '-', m1, m2, '-', d1, d2] =>
      if y1.isDigit && y2.isDigit && y3.isDigit && y4.isDigit &&
         m1.isDigit && m2.isDigit && d1.isDigit && d2.isDigit then
        let year := digitsToNat [y1, y2, y3, y4]
        let month := digitsToNat [m1, m2]
        let day := digitsToNat [d1, d2]
        1 ≤ month && month ≤ 12 && 1 ≤ day && day ≤ daysInMonth year month
      else false
  | _ => false

/-- CSVImport.tsx formatDate, under the date model described above. -/
def formatDate (today : String) (dateStr : String) : String :=
  if isCanonicalDate dateStr then dateStr else today

/-! ## Data model (DataContext.tsx types) -/

/-- The transaction type union "income" | "expense". -/
inductive TxType where
  | income
  | expense
deriving DecidableEq, Repr

/-- The budget period union "monthly" | "yearly". -/
inductive Period where
  | monthly
  | yearly
deriving DecidableEq, Repr

/-- DataContext.tsx Transaction. -/
structure Transaction where
  id : ℚ
  date : String
  amount : ℚ
  description : String
  category : String
  paymentMethod : String
  type : TxType
deriving DecidableEq, Repr

/-- Omit of Transaction without id, the input of addTransaction. -/
structure TransactionInput where
  date : String
  amount : ℚ
  description : String
  category : String
  paymentMethod : String
  type : TxType
deriving DecidableEq, Repr

/-- Attach an id to a transaction input. -/
def toTransaction (id : ℚ) (t : TransactionInput) : Transaction :=
  { id := id, date := t.date, amount := t.amount, description := t.description,
    category := t.category, paymentMethod := t.paymentMethod, type := t.type }

/-- DataContext.tsx Budget. -/
structure Budget where
  id : ℚ
  category : String
  amount : ℚ
  spent : ℚ
  period : Period
deriving DecidableEq, Repr

/-- Omit of Budget without id, the input of addBudget. -/
structure BudgetInput where
  category : String
  amount : ℚ
  spent : ℚ
  period : Period
deriving DecidableEq, Repr

/-- DataContext.tsx DataState. -/
structure DataState where
  transactions : List Transaction
  budgets : List Budget
  categories : List String
  paymentMethods : List String
  loading : Bool
  error : Option String
deriving DecidableEq, Repr

/-- DataContext.tsx initialState. -/
def initialState : DataState :=
  { transactions := []
  , budgets := []
  , categories := ["Food", "Transportation", "Entertainment", "Shopping",
                   "Bills", "Healthcare", "Income", "Other"]
  , paymentMethods := ["Credit Card", "Debit Card", "Bank Transfer", "Cash",
                       "PayPal", "Other"]
  , loading := false
  , error := none }

/-- DataContext.tsx DataAction. The actions whose reducer case calls
generateId receive the generated value through the reducer parameter. -/
inductive DataAction where
  | setLoading (b : Bool)
  | setError (e : Option String)
  | setTransactions (ts : List Transaction)
  | addTransaction (payload : Transaction)
  | updateTransaction (payload : Transaction)
  | deleteTransaction (tid : ℚ)
  | setBudgets (bs : List Budget)
  | addBudget (payload : Budget)
  | updateBudget (payload : Budget)
  | deleteBudget (bid : ℚ)
  | setCategories (cs : List String)
  | setPaymentMethods (ps : List String)
  | updateBudgetSpent (category : String) (amount : ℚ)
  | addCategory (c : String)
deriving DecidableEq, Repr

/-! ## Derivation engine (DataContext.tsx helpers and reducer) -/

/-- DataContext.tsx calculateBudgetSpent: sum of the absolute amounts of
expense transactions of the category dated in the current month. -/
def calculateBudgetSpent (currentMonth : String) (transactions : List Transaction)
    (category : String) : ℚ :=
  (transactions.filter (fun t =>
      t.category = category && t.type = TxType.expense && strStartsWith t.date currentMonth)).foldl
    (fun sum t => sum + |t.amount|) 0

/-- DataContext.tsx updateAllBudgetSpent. -/
def updateAllBudgetSpent (currentMonth : String) (transactions : List Transaction)
    (budgets : List Budget) : List Budget :=
  budgets.map (fun budget =>
    { budget with spent := calculateBudgetSpent currentMonth transactions budget.category })

/-- DataContext.tsx dataReducer. The freshId argument stands for the value
of the generateId call made inside the ADD_TRANSACTION and ADD_BUDGET cases;
it is ignored by every other case. -/
def dataReducer (month : String) (freshId : ℚ) (state : DataState)
    (action : DataAction) : DataState :=
  match action with
  | .setLoading b => { state with loading := b }
  | .setError e => { state with error := e }
  | .setTransactions ts =>
      { state with transactions := ts
                 , budgets := updateAllBudgetSpent month ts state.budgets }
  | .addTransaction payload =>
      let newTransactions := state.transactions ++ [{ payload with id := freshId }]
      { state with transactions := newTransactions
                 , budgets := updateAllBudgetSpent month newTransactions state.budgets }
  | .updateTransaction payload =>
      let updatedTransactions :=
        state.transactions.map (fun t => if t.id = payload.id then payload else t)
      { state with transactions := updatedTransactions
                 , budgets := updateAllBudgetSpent month updatedTransactions state.budgets }
  | .deleteTransaction tid =>
      let filteredTransactions := state.transactions.filter (fun t => t.id ≠ tid)
      { state with transactions := filteredTransactions
                 , budgets := updateAllBudgetSpent month filteredTransactions state.budgets }
  | .setBudgets bs =>
      { state with budgets := updateAllBudgetSpent month state.transactions bs }
  | .addBudget payload =>
      let updatedBudgets := state.budgets ++ [{ payload with id := freshId }]
      { state with budgets := updateAllBudgetSpent month state.transactions updatedBudgets }
  | .updateBudget payload =>
      let modifiedBudgets :=
        state.budgets.map (fun b => if b.id = payload.id then payload else b)
      { state with budgets := updateAllBudgetSpent month state.transactions modifiedBudgets }
  | .deleteBudget bid =>
      let remainingBudgets := state.budgets.filter (fun b => b.id ≠ bid)
      { state with budgets := updateAllBudgetSpent month state.transactions remainingBudgets }
  | .setCategories cs => { state with categories := cs }
  | .setPaymentMethods ps => { state with paymentMethods := ps }
  | .updateBudgetSpent category amount =>
      { state with budgets := state.budgets.map (fun budget =>
          if budget.category = category then { budget with spent := amount } else budget) }
  | .addCategory c => { state with categories := state.categories ++ [c] }

/-! ## Provider helper functions (DataContext.tsx DataProvider).
Each helper wraps one or more dispatches of dataReducer. generateId values
are supplied explicitly: helperId for the call the helper itself makes,
reducerId for the call the reducer case makes. -/

/-- DataContext.tsx addTransaction: builds a payload with its own generated
id and dispatches ADD_TRANSACTION. -/
def addTransaction (month : String) (helperId reducerId : ℚ)
    (input : TransactionInput) (s : DataState) : DataState :=
  dataReducer month reducerId s (.addTransaction (toTransaction helperId input))

/-- DataContext.tsx updateTransaction. -/
def updateTransaction (month : String) (t : Transaction) (s : DataState) : DataState :=
  dataReducer month 0 s (.updateTransaction t)

/-- DataContext.tsx deleteTransaction. -/
def deleteTransaction (month : String) (tid : ℚ) (s : DataState) : DataState :=
  dataReducer month 0 s (.deleteTransaction tid)

/-- DataContext.tsx addBudget: overrides spent with 0, attaches its own
generated id, and dispatches ADD_BUDGET. -/
def addBudget (month : String) (helperId reducerId : ℚ)
    (input : BudgetInput) (s : DataState) : DataState :=
  dataReducer month reducerId s
    (.addBudget { id := helperId, category := input.category, amount := input.amount,
                  spent := 0, period := input.period })

/-- DataContext.tsx updateBudget. -/
def updateBudget (month : String) (b : Budget) (s : DataState) : DataState :=
  dataReducer month 0 s (.updateBudget b)

/-- DataContext.tsx deleteBudget. -/
def deleteBudget (month : String) (bid : ℚ) (s : DataState) : DataState :=
  dataReducer month 0 s (.deleteBudget bid)

/-- DataContext.tsx addCategory: dispatches only when the category is new. -/
def addCategory (month : String) (c : String) (s : DataState) : DataState :=
  if s.categories.contains c then s else dataReducer month 0 s (.addCategory c)

/-- The record returned by getMonthlyStats. -/
structure MonthlyStats where
  totalIncome : ℚ
  totalExpenses : ℚ
  savings : ℚ
  budgetUsed : ℤ
deriving DecidableEq, Repr

/-- The total of all budget amounts, as reduced inside getMonthlyStats. -/
def totalBudgetAmount (s : DataState) : ℚ :=
  s.budgets.foldl (fun sum b => sum + b.amount) 0

/-- DataContext.tsx getMonthlyStats. Math.round of JavaScript rounds half
toward positive infinity, which is the Mathlib round. -/
def getMonthlyStats (month : String) (s : DataState) : MonthlyStats :=
  let monthlyTransactions := s.transactions.filter (fun t => strStartsWith t.date month)
  let totalIncome :=
    (monthlyTransactions.filter (fun t => t.type = TxType.income)).foldl
      (fun sum t => sum + t.amount) 0
  let totalExpenses :=
    |(monthlyTransactions.filter (fun t => t.type = TxType.expense)).foldl
      (fun sum t => sum + t.amount) 0|
  let savings := totalIncome - totalExpenses
  let totalBudget := totalBudgetAmount s
  let budgetUsed : ℤ :=
    if 0 < totalBudget then round ((totalExpenses / totalBudget) * 100) else 0
  { totalIncome := totalIncome, totalExpenses := totalExpenses,
    savings := savings, budgetUsed := budgetUsed }

/-- DataContext.tsx clearAllData: dispatches SET_TRANSACTIONS with the empty
list and then SET_BUDGETS with the empty list (the localStorage removal has
no counterpart in the state model). -/
def clearAllData (month : String) (s : DataState) : DataState :=
  dataReducer month 0 (dataReducer month 0 s (.setTransactions [])) (.setBudgets [])

/-- The JSON document produced by exportData and consumed by importData.
JSON.stringify followed by JSON.parse is the identity on these records, so
the serialization is modelled at the document level; each collection is an
Option because importData only dispatches for the keys that are present
(an empty array is a truthy JavaScript value, so a present empty collection
still dispatches and is modelled as some of the empty list). -/
structure ExportDoc where
  transactions : Option (List Transaction)
  budgets : Option (List Budget)
  categories : Option (List String)
  paymentMethods : Option (List String)
  exportDate : String
deriving DecidableEq, Repr

/-- DataContext.tsx exportData. -/
def exportData (exportDate : String) (s : DataState) : ExportDoc :=
  { transactions := some s.transactions
  , budgets := some s.budgets
  , categories := some s.categories
  , paymentMethods := some s.paymentMethods
  , exportDate := exportDate }

/-- DataContext.tsx importData on an already parsed document: dispatches
SET_TRANSACTIONS, SET_BUDGETS, SET_CATEGORIES, SET_PAYMENT_METHODS for the
present keys, in this order, and returns true; the false branch of the
source is the JSON.parse failure, which cannot occur on a document value. -/
def importData (month : String) (doc : ExportDoc) (s : DataState) : Bool × DataState :=
  let s1 := match doc.transactions with
    | some ts => dataReducer month 0 s (.setTransactions ts)
    | none => s
  let s2 := match doc.budgets with
    | some bs => dataReducer month 0 s1 (.setBudgets bs)
    | none => s1
  let s3 := match doc.categories with
    | some cs => dataReducer month 0 s2 (.setCategories cs)
    | none => s2
  let s4 := match doc.paymentMethods with
    | some ps => dataReducer month 0 s3 (.setPaymentMethods ps)
    | none => s3
  (true, s4)

/-! ## CSV ingestion pipeline (CSVImport.tsx).
The csv-prefixed review-stage id of the source (built from Date.now, the row
index and Math.random, and used only to select rows in the review UI) is
nondeterministic and is not modelled; a staged transaction is the remaining
payload. -/

/-- CSVImport.tsx CSVTransaction without the review-stage id. -/
structure CSVTransaction where
  description : String
  amount : ℚ
  category : String
  date : String
  type : TxType
deriving DecidableEq, Repr

/-- CSVImport.tsx parseCSVLine: quote-aware comma splitting. -/
def parseCSVLineAux : List Char → Bool → List Char → List String → List String
  | [], _, current, result => result ++ [strTrim (String.mk current)]
  | c :: rest, inQuotes, current, result =>
      if c = '"' then parseCSVLineAux rest (!inQuotes) current result
      else if c = ',' && !inQuotes then
        parseCSVLineAux rest inQuotes [] (result ++ [strTrim (String.mk current)])
      else parseCSVLineAux rest inQuotes (current ++ [c]) result

/-- CSVImport.tsx parseCSVLine. -/
def parseCSVLine (line : String) : List String :=
  parseCSVLineAux line.data false [] []

/-- The required logical header fields of parseCSV. -/
def requiredHeaders : List String := ["description", "amount", "category", "date"]

/-- The header list of a header line: split on commas, trimmed, lowercased. -/
def headersOf (headerLine : String) : List String :=
  (splitChar ',' headerLine).map (fun h => strToLower (strTrim h))

/-- The required fields not contained in any header, in required order. -/
def missingHeadersOf (headers : List String) : List String :=
  requiredHeaders.filter (fun header => !(headers.any (fun h => strIncludes h header)))

/-- Index of the first header containing the field name. The source uses
findIndex, which yields -1 when absent, making the value lookup undefined;
findIdx yields the list length, making the lookup none: both paths then take
the same default, so the models agree. -/
def findHeaderIdx (headers : List String) (field : String) : Nat :=
  headers.findIdx (fun h => strIncludes h field)

/-- Field extraction values[idx]?.trim() || dflt: the default is taken both
when the index is out of range and when the trimmed value is empty. -/
def getField (values : List String) (idx : Nat) (dflt : String) : String :=
  match values.get? idx with
  | none => dflt
  | some v => if strTrim v = "" then dflt else strTrim v

/-- The cleaned amount field of a data row, as fed to parseFloat. -/
def cleanedAmountField (headers : List String) (line : String) : String :=
  removeDollarComma (getField (parseCSVLine line) (findHeaderIdx headers "amount") "0")

/-- One iteration of the parseCSV row loop: the staged transaction of a data
line, or none when the row is skipped (fewer than 4 fields, empty
description or date, or unparseable amount). -/
def processRow (today : String) (headers : List String) (line : String) :
    Option CSVTransaction :=
  let values := parseCSVLine line
  if values.length < 4 then none
  else
    let description := getField values (findHeaderIdx headers "description") ""
    let amountStr := getField values (findHeaderIdx headers "amount") "0"
    let category := getField values (findHeaderIdx headers "category") "Other"
    let dateStr := getField values (findHeaderIdx headers "date") ""
    if description = "" || amountStr = "" || dateStr = "" then none
    else
      match jsParseFloat (removeDollarComma amountStr) with
      | none => none
      | some amount =>
          some { description := description
               , amount := |amount|
               , category := category
               , date := formatDate today dateStr
               , type := if 0 ≤ amount then TxType.income else TxType.expense }

/-- The parseCSV row loop: accumulates staged transactions and, for staged
rows whose category is neither already known nor already collected, the new
categories in insertion order (the JavaScript Set of the source preserves
insertion order). -/
def parseRowsLoop (today : String) (knownCats : List String) (headers : List String) :
    List String → List CSVTransaction → List String → List CSVTransaction × List String
  | [], txs, newCats => (txs, newCats)
  | line :: rest, txs, newCats =>
      match processRow today headers line with
      | none => parseRowsLoop today knownCats headers rest txs newCats
      | some t =>
          parseRowsLoop today knownCats headers rest (txs ++ [t])
            (if knownCats.contains t.category || newCats.contains t.category then newCats
             else newCats ++ [t.category])

/-- CSVImport.tsx parseCSV after line splitting: the header checks and the
row loop. Errors are the thrown messages; success carries the staged
transactions and the discovered new categories. -/
def parseCSVFromLines (today : String) (knownCats : List String)
    (lines : List String) : Except String (List CSVTransaction × List String) :=
  if lines.length < 2 then
    .error "CSV file must have at least a header and one data row"
  else
    let headers := headersOf (lines.headD "")
    let missingHeaders := missingHeadersOf headers
    if missingHeaders ≠ [] then
      .error ("Missing required columns: " ++ String.intercalate ", " missingHeaders)
    else
      .ok (parseRowsLoop today knownCats headers (lines.drop 1) [] [])

/-- CSVImport.tsx line splitting: split on newline, keep the lines whose
trim is nonempty. -/
def splitLines (csvText : String) : List String :=
  (splitChar '\n' csvText).filter (fun line => strTrim line ≠ "")

/-- CSVImport.tsx parseCSV. -/
def parseCSV (today : String) (knownCats : List String) (csvText : String) :
    Except String (List CSVTransaction × List String) :=
  parseCSVFromLines today knownCats (splitLines csvText)

/-- The transactions staged by a parse result: none on an aborted parse. -/
def stagedTransactions (r : Except String (List CSVTransaction × List String)) :
    List CSVTransaction :=
  match r with
  | .ok p => p.1
  | .error _ => []

/-! ## Batch addition.
The DataContext interface consumed by CSVImport.tsx destructures
addTransactionsBatch from useData, but DataContext.tsx neither declares it
in DataContextType nor implements it in the provider; only the caller and
the spec describe it. -/

/-- Modelled from the spec: addTransactionsBatch is missing from src/
(DataContext.tsx defines no such member; CSVImport.tsx calls it). Per the
spec it behaves like addTransaction for each item of the list but performs
one append and one recomputation pass for the whole batch. Each item is
paired with the fresh id generated for it; the second component counts the
recomputation passes performed. -/
def addTransactionsBatch (month : String) (items : List (ℚ × TransactionInput))
    (s : DataState) : DataState × Nat :=
  let newTransactions := s.transactions ++ items.map (fun p => toTransaction p.1 p.2)
  ({ s with transactions := newTransactions
          , budgets := updateAllBudgetSpent month newTransactions s.budgets }, 1)

/-- Recomputation passes the reducer performs for one action: exactly the
cases whose source calls updateAllBudgetSpent. -/
def recomputationsOf : DataAction → Nat
  | .setTransactions _ => 1
  | .addTransaction _ => 1
  | .updateTransaction _ => 1
  | .deleteTransaction _ => 1
  | .setBudgets _ => 1
  | .addBudget _ => 1
  | .updateBudget _ => 1
  | .deleteBudget _ => 1
  | _ => 0

/-- Sequential addTransaction calls, one per item (helper id, stored id,
input), with the total number of recomputation passes performed. -/
def addTransactionsSeq (month : String) (items : List (ℚ × ℚ × TransactionInput))
    (s : DataState) : DataState × Nat :=
  items.foldl
    (fun acc p =>
      (addTransaction month p.1 p.2.1 p.2.2 acc.1,
       acc.2 + recomputationsOf (.addTransaction (toTransaction p.1 p.2.2))))
    (s, 0)

/-! ## Transaction operation sequences (for the budget-spent invariant) -/

/-- One call of the transaction mutation API. -/
inductive TxOp where
  | add (helperId reducerId : ℚ) (input : TransactionInput)
  | update (t : Transaction)
  | delete (tid : ℚ)
deriving DecidableEq, Repr

/-- Apply one transaction operation through the provider helpers. -/
def applyTxOp (month : String) (s : DataState) : TxOp → DataState
  | .add helperId reducerId input => addTransaction month helperId reducerId input s
  | .update t => updateTransaction month t s
  | .delete tid => deleteTransaction month tid s

/-- Apply a sequence of transaction operations in order. -/
def applyTxOps (month : String) (s : DataState) (ops : List TxOp) : DataState :=
  ops.foldl (applyTxOp month) s

/-- Spec-side formula: the sum of the absolute amounts of expense-type
transactions of the category whose date starts with the current month. -/
def specMonthlyExpenseSum (month : String) (ts : List Transaction) (category : String) : ℚ :=
  ((ts.filter (fun t =>
      t.category = category && t.type = TxType.expense && strStartsWith t.date month)).map
    (fun t => |t.amount|)).sum

/-- Spec-side invariant: every budget of the state carries the monthly
expense total of its category as spent. -/
def budgetsConsistent (month : String) (s : DataState) : Prop :=
  ∀ b ∈ s.budgets, b.spent = specMonthlyExpenseSum month s.transactions b.category

/-! ## Decidable equality of parse results -/

instance {ε α : Type} [DecidableEq ε] [DecidableEq α] : DecidableEq (Except ε α)
  | .error e1, .error e2 => decidable_of_iff (e1 = e2) (by simp)
  | .ok a1, .ok a2 => decidable_of_iff (a1 = a2) (by simp)
  | .error _, .ok _ => isFalse (by simp)
  | .ok _, .error _ => isFalse (by simp)

/-! ## Shared lemmas -/

theorem foldl_add_abs_eq_sum (l : List Transaction) (a : ℚ) :
    l.foldl (fun sum t => sum + |t.amount|) a = a + (l.map (fun t => |t.amount|)).sum := by
  induction l generalizing a with
  | nil => simp
  | cons t rest ih => simp [List.foldl_cons, ih, add_assoc]

theorem calculateBudgetSpent_eq_spec (month : String) (ts : List Transaction)
    (category : String) :
    calculateBudgetSpent month ts category = specMonthlyExpenseSum month ts category := by
  simp [calculateBudgetSpent, specMonthlyExpenseSum, foldl_add_abs_eq_sum]

theorem updateAllBudgetSpent_consistent (month : String) (ts : List Transaction)
    (bs : List Budget) :
    ∀ b ∈ updateAllBudgetSpent month ts bs,
      b.spent = specMonthlyExpenseSum month ts b.category := by
  intro b hb
  simp only [updateAllBudgetSpent, List.mem_map] at hb
  obtain ⟨a, _, rfl⟩ := hb
  simpa using calculateBudgetSpent_eq_spec month ts a.category

theorem updateAllBudgetSpent_of_consistent (month : String) (ts : List Transaction)
    (bs : List Budget) (h : ∀ b ∈ bs, b.spent = specMonthlyExpenseSum month ts b.category) :
    updateAllBudgetSpent month ts bs = bs := by
  induction bs with
  | nil => rfl
  | cons b rest ih =>
      have hb := h b (by simp)
      have hrest := ih (fun x hx => h x (by simp [hx]))
      simp only [updateAllBudgetSpent, List.map_cons] at hrest ⊢
      rw [calculateBudgetSpent_eq_spec, ← hb]
      simp [hrest]

/-! ## C1: the budget-spent invariant over transaction mutation sequences -/

theorem applyTxOp_budgets (month : String) (s : DataState) (op : TxOp) :
    (applyTxOp month s op).budgets
      = updateAllBudgetSpent month (applyTxOp month s op).transactions s.budgets := by
  cases op <;>
    simp [applyTxOp, addTransaction, updateTransaction, deleteTransaction, dataReducer]

theorem applyTxOp_consistent (month : String) (s : DataState) (op : TxOp) :
    budgetsConsistent month (applyTxOp month s op) := by
  intro b hb
  rw [applyTxOp_budgets] at hb
  exact updateAllBudgetSpent_consistent month _ s.budgets b hb

/-- C1 (amended: the sequence is nonempty). After any nonempty sequence of
addTransaction, updateTransaction and deleteTransaction calls, every budget
of the resulting state carries as spent the sum of the absolute amounts of
the expense transactions of its category dated in the current month. -/
theorem budget_spent_invariant (month : String) (s : DataState) (op : TxOp)
    (ops : List TxOp) :
    budgetsConsistent month (applyTxOps month s (op :: ops)) := by
  induction ops generalizing s op with
  | nil => exact applyTxOp_consistent month s op
  | cons op2 rest ih =>
      have h := ih (applyTxOp month s op) op2
      simpa [applyTxOps, List.foldl_cons] using h

/-- A starting state whose single budget records spent 5 although no
transaction exists. -/
def staleSpentState : DataState :=
  { transactions := []
  , budgets := [{ id := 1, category := "Food", amount := 100, spent := 5,
                  period := Period.monthly }]
  , categories := ["Food"], paymentMethods := ["Cash"]
  , loading := false, error := none }

/-- C1 as stated is false for the empty operation sequence: it leaves a
stale starting state untouched, so a budget keeps spent 5 although the
current-month expense total of its category is 0. -/
theorem budget_spent_invariant_empty_seq_cex :
    ¬ budgetsConsistent "2024-01" (applyTxOps "2024-01" staleSpentState []) := by
  simp [budgetsConsistent, applyTxOps, staleSpentState, specMonthlyExpenseSum]

/-! ## C4: addBudget recomputes the fresh budget's spent -/

/-- C4. addBudget leaves the transactions unchanged and appends a budget
carrying the reducer-generated id whose spent is the already-recorded
current-month expense total of its category (the helper writes spent 0 and
the reducer immediately recomputes it); deleteBudget leaves the transactions
unchanged. -/
theorem addBudget_recomputes_spent (month : String) (helperId reducerId : ℚ)
    (input : BudgetInput) (s : DataState) :
    (addBudget month helperId reducerId input s).transactions = s.transactions ∧
    (addBudget month helperId reducerId input s).budgets
      = updateAllBudgetSpent month s.transactions s.budgets
        ++ [{ id := reducerId, category := input.category, amount := input.amount,
              spent := specMonthlyExpenseSum month s.transactions input.category,
              period := input.period }] ∧
    ∀ bid : ℚ, (deleteBudget month bid s).transactions = s.transactions := by
  refine ⟨rfl, ?_, fun bid => rfl⟩
  simp [addBudget, dataReducer, updateAllBudgetSpent, calculateBudgetSpent_eq_spec]

/-! ## C9: the reducer discards the payload id of ADD_TRANSACTION -/

/-- C9. The ADD_TRANSACTION case appends the payload with the id the reducer
itself generates: the stored id is the reducer-generated one, the result
does not depend on the payload id at all, and whenever the generated id
differs from the payload id (the id the addTransaction helper assigned
before dispatching), no newly stored transaction carries the payload id. -/
theorem addTransaction_reducer_fresh_id (month : String) (freshId : ℚ)
    (payload : Transaction) (s : DataState) :
    (dataReducer month freshId s (.addTransaction payload)).transactions
      = s.transactions ++ [{ payload with id := freshId }] ∧
    (∀ x : ℚ, dataReducer month freshId s (.addTransaction { payload with id := x })
      = dataReducer month freshId s (.addTransaction payload)) ∧
    (freshId ≠ payload.id →
      ∀ t ∈ (dataReducer month freshId s (.addTransaction payload)).transactions,
        t ∉ s.transactions → t.id ≠ payload.id) := by
  refine ⟨rfl, fun x => rfl, fun hne t ht hnew => ?_⟩
  simp only [dataReducer, List.mem_append, List.mem_singleton] at ht
  rcases ht with h | rfl
  · exact absurd h hnew
  · simpa using hne

/-- A sample transaction payload with id 1. -/
def sampleTx : Transaction :=
  { id := 1, date := "2024-01-02", amount := 5, description := "coffee",
    category := "Food", paymentMethod := "Cash", type := TxType.expense }

/-- Witness for C9 at a concrete input: the reducer stores id 2 for a
payload carrying id 1, so the stored transaction does not carry the helper
id. -/
theorem addTransaction_reducer_fresh_id_witness :
    ({ sampleTx with id := 2 } : Transaction).id ≠ sampleTx.id :=
  (addTransaction_reducer_fresh_id "2024-01" 2 sampleTx initialState).2.2
    (by decide)
    { sampleTx with id := 2 }
    (by simp [dataReducer, initialState])
    (by simp [initialState])

/-! ## C10: clearAllData empties only transactions and budgets -/

/-- C10. clearAllData empties the transactions and the budgets and leaves
the categories and the payment methods exactly as they were. -/
theorem clearAllData_frame (month : String) (s : DataState) :
    (clearAllData month s).transactions = [] ∧
    (clearAllData month s).budgets = [] ∧
    (clearAllData month s).categories = s.categories ∧
    (clearAllData month s).paymentMethods = s.paymentMethods := by
  refine ⟨rfl, rfl, rfl, rfl⟩

/-! ## C2: batch addition versus sequential addition -/

theorem addTransactionsSeq_foldl (month : String)
    (items : List (ℚ × ℚ × TransactionInput)) (acc : DataState × Nat) :
    (items.foldl
      (fun acc p =>
        (addTransaction month p.1 p.2.1 p.2.2 acc.1,
         acc.2 + recomputationsOf (.addTransaction (toTransaction p.1 p.2.2))))
      acc).1.transactions
        = acc.1.transactions ++ items.map (fun p => toTransaction p.2.1 p.2.2) ∧
    (items.foldl
      (fun acc p =>
        (addTransaction month p.1 p.2.1 p.2.2 acc.1,
         acc.2 + recomputationsOf (.addTransaction (toTransaction p.1 p.2.2))))
      acc).2 = acc.2 + items.length := by
  induction items generalizing acc with
  | nil => simp
  | cons p rest ih =>
      have h := ih (addTransaction month p.1 p.2.1 p.2.2 acc.1,
        acc.2 + recomputationsOf (.addTransaction (toTransaction p.1 p.2.2)))
      simp only [List.foldl_cons, List.map_cons, List.length_cons] at h ⊢
      constructor
      · rw [h.1]
        simp [addTransaction, dataReducer, toTransaction]
      · rw [h.2]
        simp [recomputationsOf]
        omega

/-- C2. addTransactionsBatch over a list of inputs (each paired with the
fresh id it receives) produces the same final transaction list as the same
inputs added by sequential addTransaction calls receiving the same stored
ids, while performing exactly one recomputation pass where the sequential
calls perform one pass per item. -/
theorem addTransactionsBatch_eq_seq (month : String)
    (items : List (ℚ × ℚ × TransactionInput)) (s : DataState) :
    (addTransactionsBatch month (items.map (fun p => (p.2.1, p.2.2))) s).1.transactions
      = (addTransactionsSeq month items s).1.transactions ∧
    (addTransactionsBatch month (items.map (fun p => (p.2.1, p.2.2))) s).2 = 1 ∧
    (addTransactionsSeq month items s).2 = items.length := by
  have h := addTransactionsSeq_foldl month items (s, 0)
  refine ⟨?_, rfl, ?_⟩
  · rw [addTransactionsSeq, h.1]
    simp [addTransactionsBatch, Function.comp]
  · rw [addTransactionsSeq, h.2]
    simp

/-! ## C3: export followed by import -/

theorem importData_exportData_parts (month exportDate : String) (s : DataState) :
    (importData month (exportData exportDate s) s).1 = true ∧
    (importData month (exportData exportDate s) s).2.transactions = s.transactions ∧
    (importData month (exportData exportDate s) s).2.categories = s.categories ∧
    (importData month (exportData exportDate s) s).2.paymentMethods = s.paymentMethods ∧
    (importData month (exportData exportDate s) s).2.budgets
      = updateAllBudgetSpent month s.transactions s.budgets := by
  refine ⟨rfl, rfl, rfl, rfl, rfl⟩

/-- C3 (amended). Importing an export of the current state always succeeds
and restores the transactions, the categories and the payment methods
exactly; the budgets come back with their spent recomputed from the
transactions for the current month, so the whole state is restored exactly
whenever the prior spent values were consistent with the transaction set. -/
theorem importData_exportData_roundtrip (month exportDate : String) (s : DataState) :
    (importData month (exportData exportDate s) s).1 = true ∧
    (importData month (exportData exportDate s) s).2.transactions = s.transactions ∧
    (importData month (exportData exportDate s) s).2.categories = s.categories ∧
    (importData month (exportData exportDate s) s).2.paymentMethods = s.paymentMethods ∧
    (importData month (exportData exportDate s) s).2.budgets
      = updateAllBudgetSpent month s.transactions s.budgets ∧
    (budgetsConsistent month s → (importData month (exportData exportDate s) s).2 = s) := by
  obtain ⟨h1, h2, h3, h4, h5⟩ := importData_exportData_parts month exportDate s
  refine ⟨h1, h2, h3, h4, h5, fun hc => ?_⟩
  show ({ s with budgets := updateAllBudgetSpent month s.transactions s.budgets } : DataState) = s
  rw [updateAllBudgetSpent_of_consistent month s.transactions s.budgets hc]

/-- Witness for C3 at a concrete consistent state: the initial state round
trips to itself. -/
theorem importData_exportData_roundtrip_witness :
    (importData "2024-01" (exportData "2024-01-31" initialState) initialState).2
      = initialState :=
  (importData_exportData_roundtrip "2024-01" "2024-01-31" initialState).2.2.2.2.2
    (by simp [budgetsConsistent, initialState])

/-- C3 as stated is false: a state whose budget carries a stale spent value
is not restored identically, because the import recomputes spent. -/
theorem importData_exportData_roundtrip_cex :
    (importData "2024-01" (exportData "2024-01-31" staleSpentState) staleSpentState).2.budgets
      ≠ staleSpentState.budgets := by
  simp [importData, exportData, staleSpentState, dataReducer, updateAllBudgetSpent,
        calculateBudgetSpent]

/-! ## C5: getMonthlyStats totals and the division guard -/

/-- C5 (amended: the ratio formula applies when the budget total is
positive; a zero or negative total yields 0). On an empty transaction set
every stat is 0; budgetUsed is 0 whenever the budget total is not positive,
and equals the rounded expense ratio whenever the total is positive. -/
theorem getMonthlyStats_guard (month : String) (s : DataState) :
    (s.transactions = [] → getMonthlyStats month s =
      { totalIncome := 0, totalExpenses := 0, savings := 0, budgetUsed := 0 }) ∧
    (totalBudgetAmount s ≤ 0 → (getMonthlyStats month s).budgetUsed = 0) ∧
    (0 < totalBudgetAmount s →
      (getMonthlyStats month s).budgetUsed
        = round ((getMonthlyStats month s).totalExpenses / totalBudgetAmount s * 100)) := by
  refine ⟨fun hts => ?_, fun hle => ?_, fun hlt => ?_⟩
  · by_cases h : 0 < totalBudgetAmount s <;>
      simp [getMonthlyStats, hts, h]
  · simp [getMonthlyStats, not_lt.mpr hle]
  · simp [getMonthlyStats, hlt]

/-- Witness for C5: at the initial state every stat evaluates to 0. -/
theorem getMonthlyStats_guard_witness :
    getMonthlyStats "2024-01" initialState =
      { totalIncome := 0, totalExpenses := 0, savings := 0, budgetUsed := 0 } :=
  (getMonthlyStats_guard "2024-01" initialState).1 rfl

/-- A state with one current-month expense of 50 and one budget whose
amount is the negative number -100. -/
def negativeBudgetState : DataState :=
  { transactions := [{ id := 1, date := "2024-01-10", amount := 50, description := "x",
                       category := "Food", paymentMethod := "Cash", type := TxType.expense }]
  , budgets := [{ id := 2, category := "Food", amount := -100, spent := 0,
                  period := Period.monthly }]
  , categories := ["Food"], paymentMethods := ["Cash"]
  , loading := false, error := none }

/-- C5 as stated is false when the budget total is negative: the code
returns 0 where the claimed rounding formula gives -50. -/
theorem getMonthlyStats_guard_cex :
    (getMonthlyStats "2024-01" negativeBudgetState).budgetUsed = 0 ∧
    round ((getMonthlyStats "2024-01" negativeBudgetState).totalExpenses
        / totalBudgetAmount negativeBudgetState * 100) = -50 ∧
    (0 : ℤ) ≠ -50 := by
  refine ⟨?_, ?_, by decide⟩
  · simp [getMonthlyStats, negativeBudgetState, totalBudgetAmount, strStartsWith,
          startsWithChars]
    try norm_num
  · simp [getMonthlyStats, negativeBudgetState, totalBudgetAmount, strStartsWith,
          startsWithChars]
    try norm_num [round_eq]

/-! ## C6: the sample row and the sign convention -/

/-- C6. The sample data row under the canonical header stages exactly one
transaction with the absolute amount and the expense type; in general every
staged row carries the absolute value of its parsed amount and the type
income exactly when the parsed amount is non-negative. -/
theorem parseCSV_sample_row_and_sign :
    parseCSV "2024-02-20" initialState.categories
        "description,amount,category,date\nGrocery Store,-50.25,Food,2024-01-15"
      = .ok ([{ description := "Grocery Store", amount := 50.25, category := "Food",
                date := "2024-01-15", type := TxType.expense }], []) ∧
    ∀ (today : String) (headers : List String) (line : String) (t : CSVTransaction),
      processRow today headers line = some t →
      ∃ a : ℚ, jsParseFloat (cleanedAmountField headers line) = some a ∧
        t.amount = |a| ∧
        t.type = (if 0 ≤ a then TxType.income else TxType.expense) := by
  constructor
  · simp [parseCSV, parseCSVFromLines, splitLines, splitChar, splitCharAux, headersOf,
          missingHeadersOf, requiredHeaders, strIncludes, containsCharsL, startsWithChars,
          strToLower, strTrim, isWhitespaceChar, parseRowsLoop, processRow, parseCSVLine,
          parseCSVLineAux, getField, findHeaderIdx, removeDollarComma, jsParseFloat,
          parseUnsignedDec, takeDigits, digitsToNat, formatDate, isCanonicalDate,
          daysInMonth, initialState, List.findIdx_cons, List.findIdx_nil]
    norm_num
  · intro today headers line t h
    simp only [processRow] at h
    split at h
    · simp at h
    · split at h
      · simp at h
      · split at h
        · simp at h
        · rename_i amount hm
          simp only [Option.some.injEq] at h
          subst h
          exact ⟨amount, by simpa [cleanedAmountField] using hm, rfl, rfl⟩

/-- Witness for the sign conjunct of C6 at the concrete sample row. -/
theorem parseCSV_sample_row_and_sign_witness :
    ∃ a : ℚ, jsParseFloat (cleanedAmountField
        (headersOf "description,amount,category,date") "Grocery Store,-50.25,Food,2024-01-15")
      = some a ∧
    ({ description := "Grocery Store", amount := 50.25, category := "Food",
       date := "2024-01-15", type := TxType.expense } : CSVTransaction).amount = |a| ∧
    ({ description := "Grocery Store", amount := 50.25, category := "Food",
       date := "2024-01-15", type := TxType.expense } : CSVTransaction).type
      = (if 0 ≤ a then TxType.income else TxType.expense) :=
  parseCSV_sample_row_and_sign.2 "2024-02-20"
    (headersOf "description,amount,category,date") "Grocery Store,-50.25,Food,2024-01-15"
    { description := "Grocery Store", amount := 50.25, category := "Food",
      date := "2024-01-15", type := TxType.expense }
    (by
      simp [processRow, parseCSVLine, parseCSVLineAux, getField, findHeaderIdx, headersOf,
            splitChar, splitCharAux, strToLower, strTrim, isWhitespaceChar, strIncludes,
            containsCharsL, startsWithChars, removeDollarComma, jsParseFloat,
            parseUnsignedDec, takeDigits, digitsToNat, formatDate, isCanonicalDate,
            daysInMonth, List.findIdx_cons, List.findIdx_nil]
      norm_num)

/-! ## C7: missing required header columns -/

/-- C7 (amended: the input has at least a header and one data line; an input
with fewer than two nonempty lines aborts with the too-short-file error
instead). When any required field is missing from the headers, parsing
aborts with the error message listing exactly the missing field names, and
zero transactions are staged. -/
theorem parseCSV_missing_columns (today : String) (cats : List String)
    (headerLine firstData : String) (rest : List String)
    (h : missingHeadersOf (headersOf headerLine) ≠ []) :
    parseCSVFromLines today cats (headerLine :: firstData :: rest)
      = .error ("Missing required columns: "
          ++ String.intercalate ", " (missingHeadersOf (headersOf headerLine))) ∧
    stagedTransactions (parseCSVFromLines today cats (headerLine :: firstData :: rest))
      = [] := by
  have hres : parseCSVFromLines today cats (headerLine :: firstData :: rest)
      = .error ("Missing required columns: "
          ++ String.intercalate ", " (missingHeadersOf (headersOf headerLine))) := by
    simp only [parseCSVFromLines]
    rw [if_neg (by simp)]
    simp [h]
  exact ⟨hres, by rw [hres]; rfl⟩

/-- Witness for C7: a header lacking amount and category aborts with the
message naming exactly those two fields, staging nothing. -/
theorem parseCSV_missing_columns_witness :
    parseCSVFromLines "2024-02-20" [] ["description,date", "x,y"]
      = .error "Missing required columns: amount, category" ∧
    stagedTransactions (parseCSVFromLines "2024-02-20" [] ["description,date", "x,y"]) = [] := by
  have h := parseCSV_missing_columns "2024-02-20" [] "description,date" "x,y" [] (by decide)
  exact ⟨h.1.trans (by decide), h.2⟩

/-- C7 as stated is false for a header-only input lacking required fields:
the parse aborts with the too-short-file message, which does not name the
missing amount field at all (zero transactions are still staged). -/
theorem parseCSV_missing_columns_cex :
    parseCSV "2024-02-20" [] "description,date"
      = .error "CSV file must have at least a header and one data row" ∧
    strIncludes "CSV file must have at least a header and one data row" "amount" = false := by
  exact ⟨by decide, by decide⟩

/-! ## C8: rows with unparseable amounts are skipped, others staged -/

theorem processRow_none_of_bad_amount (today : String) (headers : List String)
    (line : String)
    (h : jsParseFloat (cleanedAmountField headers line) = none) :
    processRow today headers line = none := by
  simp only [cleanedAmountField] at h
  simp only [processRow]
  split
  · rfl
  · split
    · rfl
    · rw [h]

theorem parseRowsLoop_fst (today : String) (cats : List String) (hs : List String)
    (rows : List String) (txs : List CSVTransaction) (ncs : List String) :
    (parseRowsLoop today cats hs rows txs ncs).1
      = txs ++ rows.filterMap (processRow today hs) := by
  induction rows generalizing txs ncs with
  | nil => simp [parseRowsLoop]
  | cons line rest ih =>
      cases hp : processRow today hs line with
      | none => simp [parseRowsLoop, hp, ih]
      | some t => simp [parseRowsLoop, hp, ih]

/-- C8. When the headers resolve, a data row whose cleaned amount field does
not parse as a number is skipped without aborting: the parse still succeeds
and stages exactly the rows staged from the same input without the bad
line. -/
theorem parseCSV_skips_bad_amount (today : String) (cats : List String)
    (headerLine bad : String) (pre post : List String)
    (hmiss : missingHeadersOf (headersOf headerLine) = [])
    (hbad : jsParseFloat (cleanedAmountField (headersOf headerLine) bad) = none) :
    ∃ newCats,
      parseCSVFromLines today cats (headerLine :: (pre ++ bad :: post))
        = .ok ((pre ++ post).filterMap (processRow today (headersOf headerLine)), newCats) := by
  have hnone := processRow_none_of_bad_amount today (headersOf headerLine) bad hbad
  refine ⟨(parseRowsLoop today cats (headersOf headerLine) (pre ++ bad :: post) [] []).2, ?_⟩
  have hlen : ¬ (headerLine :: (pre ++ bad :: post)).length < 2 := by
    simp [List.length_append]
    omega
  simp only [parseCSVFromLines]
  rw [if_neg hlen]
  simp only [List.headD_cons, List.drop_one, List.tail_cons]
  rw [if_neg (by simp [hmiss])]
  have hfst := parseRowsLoop_fst today cats (headersOf headerLine)
    (pre ++ bad :: post) [] []
  have hsplit : (pre ++ bad :: post).filterMap (processRow today (headersOf headerLine))
      = (pre ++ post).filterMap (processRow today (headersOf headerLine)) := by
    simp [List.filterMap_append, List.filterMap_cons, hnone]
  congr 1
  calc parseRowsLoop today cats (headersOf headerLine) (pre ++ bad :: post) [] []
      = ((parseRowsLoop today cats (headersOf headerLine) (pre ++ bad :: post) [] []).1,
         (parseRowsLoop today cats (headersOf headerLine) (pre ++ bad :: post) [] []).2) := rfl
    _ = ((pre ++ post).filterMap (processRow today (headersOf headerLine)),
         (parseRowsLoop today cats (headersOf headerLine) (pre ++ bad :: post) [] []).2) := by
          rw [hfst, hsplit]
          simp

/-- Witness for C8: the row with amount abc is dropped, the surrounding two
valid rows are staged. -/
theorem parseCSV_skips_bad_amount_witness :
    ∃ newCats,
      parseCSVFromLines "2024-02-20" ["Food"]
        ("description,amount,category,date"
          :: (["a,5,Food,2024-01-02"] ++ "b,abc,Food,2024-01-03" :: ["c,-7,Food,2024-01-04"]))
      = .ok ((["a,5,Food,2024-01-02"] ++ ["c,-7,Food,2024-01-04"]).filterMap
          (processRow "2024-02-20" (headersOf "description,amount,category,date")), newCats) :=
  parseCSV_skips_bad_amount "2024-02-20" ["Food"] "description,amount,category,date"
    "b,abc,Food,2024-01-03" ["a,5,Food,2024-01-02"] ["c,-7,Food,2024-01-04"]
    (by decide) (by decide)
